import Mathlib

/-!
Verification of the physics core of the `solar_sim` gravitational N-body
simulator (a single Rust source file, `src/main.rs`).

Modelling conventions of this shallow embedding:

* `f32` values are modelled exactly over `ℚ`.  The field operations
  (`+`, `-`, `*`, `/`) of `f32` are idealised as the exact rational
  operations; the transcendental `f32` intrinsics used by the program
  (`sqrt`, `log10`, `powf`, `sin`, `cos`) have no exact rational
  counterpart, so they are abstracted as an oracle record `FOps` that every
  definition takes as a parameter and every theorem quantifies over.
* `ggez::mint::Point2<f32>` is modelled as `ℚ × ℚ`, with `.1` the `x`
  component and `.2` the `y` component.
* `rand::thread_rng` in `SimulationState::reset` is modelled as an oracle
  stream `draws : Nat → ℚ` consumed in program order: the loop iteration
  that builds orbiter `k` consumes `draws (3*k)` for `distance`,
  `draws (3*k+1)` for `angle` and `draws (3*k+2)` for `mass`.  The range
  constraints of `gen_range` (e.g. `100.0..300.0`) are the rng's contract
  and are not needed by any theorem below.
* In-place mutation (`&mut`) is modelled by state passing: a Rust method
  mutating `self` becomes a Lean function returning the new value.
* The UI-only fields of `SimulationState` (camera pan/zoom, buttons, mouse
  bookkeeping, mass-placement preview) are never read by the physics
  routines (`update`, `reset`, `add_large_mass`, `Particle` methods) and
  are omitted; the full slider bank is kept because sliders 0, 1, 3 and 6
  feed the physics.
-/

/-- Oracle record for the transcendental `f32` operations used by the
program.  Every definition is parametrised by it and every theorem
quantifies over it. -/
structure FOps where
  sqrt : ℚ → ℚ
  log10 : ℚ → ℚ
  powf : ℚ → ℚ → ℚ
  sin : ℚ → ℚ
  cos : ℚ → ℚ

/-- Rust `const WINDOW_WIDTH: f32 = 1600.0`. -/
def WINDOW_WIDTH : ℚ := 1600
/-- Rust `const WINDOW_HEIGHT: f32 = 1200.0`. -/
def WINDOW_HEIGHT : ℚ := 1200
/-- Rust `const G: f32 = 1.0`. -/
def G : ℚ := 1
/-- Rust `const DT: f32 = 0.016`. -/
def DT : ℚ := 0.016

/-- Rust `struct Particle` (the `#[derive(Clone)]` deep copy is value
copying, which is implicit for Lean values). -/
structure Particle where
  position : ℚ × ℚ
  velocity : ℚ × ℚ
  acceleration : ℚ × ℚ
  mass : ℚ
  radius : ℚ
deriving DecidableEq

/-- Rust `Particle::new(x, y, mass)`: zero velocity and acceleration,
`radius = mass.powf(0.3).max(2.0)`. -/
def Particle.new ( ops : FOps) (x y mass : ℚ) : Particle :=
  { position := (x, y)
    velocity := (0, 0)
    acceleration := (0, 0)
    mass := mass
    radius := max (ops.powf mass 0.3) 2 }

/-- Body of the `for other in particles` loop of
`Particle::calculate_acceleration`, accumulating into the acceleration
accumulator `acc`.

The source body begins with `if std::ptr::eq(self, other) { continue; }`.
Here `self` is behind `&mut self` and `other` is borrowed from
`particles: &[Particle]`; Rust's exclusive-borrow rule makes a `&mut`
disjoint from every simultaneously live shared borrow, so in every
well-typed call (and in the program's one call site, where `particles` is
a freshly cloned snapshot) the pointer comparison is false and the
`continue` is dead code.  It is therefore modelled as never skipping.

`p0` is `particles[0]`, read afresh each iteration for the softening term
(`let softening = particles[0].mass.log10()`). -/
def pairAccum (ops : FOps) (self p0 : Particle) (acc : ℚ × ℚ)
    (other : Particle) : ℚ × ℚ :=
  let dx := other.position.1 - self.position.1
  let dy := other.position.2 - self.position.2
  let softening := ops.log10 p0.mass
  let dist_squared := dx * dx + dy * dy + softening
  let dist := ops.sqrt dist_squared
  if dist < self.radius + other.radius then acc
  else
    let force := G * other.mass / dist_squared
    (acc.1 + force * dx / dist, acc.2 + force * dy / dist)

/-- Rust `Particle::calculate_acceleration(&mut self, particles)`:
resets `self.acceleration` to `(0,0)` and accumulates the pairwise
contributions over the whole slice.

The slice index `particles[0]` occurs only inside the loop body, and the
loop iterates over `particles` itself, so the body (and hence the index)
executes only when the slice is nonempty: the match below is an exact
total rendering of the source, and the empty case simply keeps the reset
accumulator.  (`Particle.calculate_acceleration_checked` below models the
indexing fallibly and is proved to agree.) -/
def Particle.calculate_acceleration (ops : FOps) (self : Particle)
    (particles : List Particle) : Particle :=
  match particles with
  | [] => { self with acceleration := (0, 0) }
  | p0 :: rest =>
      { self with acceleration := (p0 :: rest).foldl (pairAccum ops self p0) (0, 0) }

/-- Rust `Particle::calculate_acceleration` with the fallible slice index
`particles[0]` (the per-iteration softening read) modelled explicitly:
`none` models the index-out-of-bounds panic, `some` a normal return. -/
def Particle.calculate_acceleration_checked (ops : FOps) (self : Particle)
    (particles : List Particle) : Option Particle :=
  (particles.foldl
      (fun acc other => acc.bind (fun a =>
        (particles[0]?).map (fun p0 => pairAccum ops self p0 a other)))
      (some ((0 : ℚ), (0 : ℚ)))).map
    (fun a => { self with acceleration := a })

/-- Rust `Particle::update(&mut self, dt, particles)`: first half-kick
with the stale acceleration, drift, acceleration recomputation against
`particles` (the per-step snapshot at the call site), second half-kick
with the fresh acceleration. -/
def Particle.update (ops : FOps) (self : Particle) (dt : ℚ)
    (particles : List Particle) : Particle :=
  -- First half-kick
  let self1 := { self with
    velocity := (self.velocity.1 + self.acceleration.1 * dt * 0.5,
                 self.velocity.2 + self.acceleration.2 * dt * 0.5) }
  -- Drift
  let self2 := { self1 with
    position := (self1.position.1 + self1.velocity.1 * dt,
                 self1.position.2 + self1.velocity.2 * dt) }
  -- Update accelerations
  let self3 := Particle.calculate_acceleration ops self2 particles
  -- Second half-kick
  { self3 with
    velocity := (self3.velocity.1 + self3.acceleration.1 * dt * 0.5,
                 self3.velocity.2 + self3.acceleration.2 * dt * 0.5) }

/-- Rust `struct Slider`.  Only `value` is ever read by the physics; the
remaining fields are kept so that "states identical except for a slider"
is faithful. -/
structure Slider where
  value : ℚ
  min : ℚ
  max : ℚ
  label : String
  y_pos : ℚ
  text_input : Option String
deriving DecidableEq

/-- Rust `struct SimulationState`, restricted to the fields the physics
routines read or write (see the module comment).  `sliders` is total over
the seven indices the program constructs in `SimulationState::new`. -/
structure SimulationState where
  particles : List Particle
  particle_count : Nat
  initial_mass_range : ℚ × ℚ
  initial_velocity_multiplier : ℚ
  paused : Bool
  sliders : Fin 7 → Slider

/-- Body of the orbiter-construction loop in `SimulationState::reset`,
with the three `rng.gen_range` results passed in sampling order
(`distance`, `angle`, `mass`).  `centralMass` is `self.particles[0].mass`,
which at every iteration is the mass of the central particle pushed first. -/
def resetOrbiter (ops : FOps) (centralMass mult distance angle mass : ℚ) :
    Particle :=
  let x := WINDOW_WIDTH / 2 + distance * ops.cos angle
  let y := WINDOW_HEIGHT / 2 + distance * ops.sin angle
  let particle := Particle.new ops x y mass
  let orbital_speed := ops.sqrt (G * centralMass / distance) * mult
  { particle with
    velocity := (-(orbital_speed * ops.sin angle), orbital_speed * ops.cos angle) }

/-- Rust `SimulationState::reset`: clears the collection, pushes the
central particle at the window centre with `mass = self.sliders[6].value`
("Central Mass"), then pushes `particle_count` orbiters.  `draws` is the
rng oracle stream (see the module comment). -/
def SimulationState.reset (ops : FOps) (draws : Nat → ℚ)
    (self : SimulationState) : SimulationState :=
  let central := Particle.new ops (WINDOW_WIDTH / 2) (WINDOW_HEIGHT / 2)
    ((self.sliders 6).value)
  { self with particles :=
      central :: (List.range self.particle_count).map (fun k =>
        resetOrbiter ops central.mass self.initial_velocity_multiplier
          (draws (3 * k)) (draws (3 * k + 1)) (draws (3 * k + 2))) }

/-- Rust `SimulationState::add_large_mass(x, y)`: appends one particle
with `mass = self.sliders[3].value * 100.0` ("Mass" slider) and the zero
velocity `Particle::new` gives. -/
def SimulationState.add_large_mass (ops : FOps) (self : SimulationState)
    (x y : ℚ) : SimulationState :=
  let mass := (self.sliders 3).value * 100
  { self with particles := self.particles ++ [Particle.new ops x y mass] }

/-- Rust `EventHandler::update` for `SimulationState` (the per-frame
tick): when not paused, reads the "Time Speed" slider (`sliders[0]`),
forms `dt = DT * time_speed`, clones the particle collection as the
snapshot, and advances every particle in place against that snapshot.
Each loop iteration writes only its own particle, so the in-place sweep
is the map below. -/
def SimulationState.update (ops : FOps) (self : SimulationState) :
    SimulationState :=
  if self.paused then self
  else
    let time_speed := (self.sliders 0).value
    let dt := DT * time_speed
    let particles_snapshot := self.particles
    { self with particles :=
        self.particles.map (fun p => p.update ops dt particles_snapshot) }

/-- Rust `SimulationState::new`: the default parameter values and the
seven sliders in construction order, followed by the `reset` call. -/
def SimulationState.new (ops : FOps) (draws : Nat → ℚ) : SimulationState :=
  let state : SimulationState :=
    { particles := []
      particle_count := 100
      initial_mass_range := (1.0, 5.0)
      initial_velocity_multiplier := 1.0
      paused := true
      sliders :=
        ![{ value := 1.0, min := 0.1, max := 10.0, label := "Time Speed",
            y_pos := 50.0, text_input := none },
          { value := 100.0, min := 10.0, max := 1000.0, label := "Particles",
            y_pos := 90.0, text_input := some "" },
          { value := 1.0, min := 0.1, max := 5.0, label := "Velocity",
            y_pos := 130.0, text_input := none },
          { value := 3.0, min := 0.1, max := 100.0, label := "Mass",
            y_pos := 170.0, text_input := none },
          { value := 1.0, min := 0.1, max := 10.0, label := "Softening",
            y_pos := 210.0, text_input := none },
          { value := 0.016, min := 0.001, max := 0.1, label := "Time Step",
            y_pos := 250.0, text_input := none },
          { value := 1000.0, min := 100.0, max := 5000.0, label := "Central Mass",
            y_pos := 290.0, text_input := none }] }
  state.reset ops draws

/-- Spec-side description (claim C3) of one pair's additive contribution
to the accumulator of the force evaluation: zero when the near-field
cutoff skips the pair, otherwise `force * (dx/dist, dy/dist)` with
`force = G * other.mass / distSq`, `distSq = dx*dx + dy*dy + softening`,
`(dx, dy)` the offset from `target` to `other`, and `softening` a global
value supplied by the caller. -/
def specContribution (ops : FOps) (target : Particle) (softening : ℚ)
    (other : Particle) : ℚ × ℚ :=
  let dx := other.position.1 - target.position.1
  let dy := other.position.2 - target.position.2
  let distSq := dx * dx + dy * dy + softening
  let dist := ops.sqrt distSq
  if dist < target.radius + other.radius then (0, 0)
  else
    let force := G * other.mass / distSq
    (force * dx / dist, force * dy / dist)

/-! ### Concrete instantiations used by witnesses and counterexamples -/

/-- Oracle instantiation for the concrete witnesses below.  It is exact
at every point a witness evaluates it: `log10 10 = 1`, `sqrt` is exact at
the perfect-square radicands the witnesses reach, `powf _ 0.3 = 1.995`
(the value of `10 ^ 0.3` to three decimals, in particular below the
radius floor `2`), and `sin 1, cos 1` are a 3-4-5 pair, so the
Pythagorean identity the C7 witness assumes really holds. -/
def demoOps : FOps :=
  { sqrt := fun q =>
      if q = 4225 / 256 then 65 / 16
      else if q = 100 then 10
      else if q = 25 / 16 then 5 / 4
      else 0
    log10 := fun q => if q = 10 then 1 else 0
    powf := fun _ _ => 399 / 200
    sin := fun q => if q = 1 then 3 / 5 else 0
    cos := fun q => if q = 1 then 4 / 5 else 0 }

/-- Slider with the "Time Speed" layout of `SimulationState::new` but a
chosen value. -/
def demoTimeSpeedSlider (v : ℚ) : Slider :=
  { value := v, min := 0.1, max := 10, label := "Time Speed",
    y_pos := 50, text_input := none }

/-- Placeholder slider for the indices a demo state never reads. -/
def demoBlankSlider : Slider :=
  { value := 0, min := 0, max := 0, label := "", y_pos := 0, text_input := none }

/-- Demo slider bank: "Time Speed" at index 0 with value `v`, blanks
elsewhere. -/
def demoSliders (v : ℚ) : Fin 7 → Slider :=
  fun i => if i = 0 then demoTimeSpeedSlider v else demoBlankSlider

/-- A paused demo state holding one particle. -/
def demoPausedState : SimulationState :=
  { particles := [Particle.new demoOps 0 0 10]
    particle_count := 0
    initial_mass_range := (1, 5)
    initial_velocity_multiplier := 1
    paused := true
    sliders := demoSliders 2 }

/-- The same demo state, running. -/
def demoRunState : SimulationState := { demoPausedState with paused := false }

/-! ### Projection lemmas for the force evaluation -/

/-- The force evaluation writes only the acceleration field: position is
untouched. -/
theorem calc_acc_position (ops : FOps) (self : Particle) (l : List Particle) :
    (Particle.calculate_acceleration ops self l).position = self.position := by
  cases l <;> rfl

/-- The force evaluation writes only the acceleration field: velocity is
untouched. -/
theorem calc_acc_velocity (ops : FOps) (self : Particle) (l : List Particle) :
    (Particle.calculate_acceleration ops self l).velocity = self.velocity := by
  cases l <;> rfl

/-- The force evaluation writes only the acceleration field: mass is
untouched. -/
theorem calc_acc_mass (ops : FOps) (self : Particle) (l : List Particle) :
    (Particle.calculate_acceleration ops self l).mass = self.mass := by
  cases l <;> rfl

/-- The force evaluation writes only the acceleration field: radius is
untouched. -/
theorem calc_acc_radius (ops : FOps) (self : Particle) (l : List Particle) :
    (Particle.calculate_acceleration ops self l).radius = self.radius := by
  cases l <;> rfl

/-! ### C1 -/

/-- C1: when `paused` is true the frame update (`SimulationState.update`)
is a no-op changing nothing; when `paused` is false it advances every
particle against the pre-step snapshot of the whole collection, with
effective `dt = 0.016 * time_speed` where `time_speed` is the value of
slider 0 ("Time Speed"). -/
theorem update_paused_noop_snapshot_advance (ops : FOps) (s : SimulationState) :
    (s.paused = true → SimulationState.update ops s = s) ∧
    (s.paused = false →
      (SimulationState.update ops s).particles =
        s.particles.map (fun p =>
          p.update ops (0.016 * (s.sliders 0).value) s.particles)) := by
  constructor
  · intro h
    simp [SimulationState.update, h]
  · intro h
    simp [SimulationState.update, h, DT]

/-- Witness for C1: the paused demo state is returned unchanged, and the
running demo state's particles are the snapshot-advanced map. -/
theorem update_paused_noop_snapshot_advance_witness :
    SimulationState.update demoOps demoPausedState = demoPausedState ∧
    (SimulationState.update demoOps demoRunState).particles =
      demoRunState.particles.map (fun p =>
        p.update demoOps (0.016 * (demoRunState.sliders 0).value)
          demoRunState.particles) :=
  ⟨(update_paused_noop_snapshot_advance demoOps demoPausedState).1 rfl,
   (update_paused_noop_snapshot_advance demoOps demoRunState).2 rfl⟩

/-! ### C2 -/

/-- C2: `Particle::update` performs exactly, in order, a half-kick with
the stale previous-step acceleration, a drift, a recomputation of the
acceleration against the supplied snapshot, and a second half-kick with
the freshly computed acceleration; mass and radius are not changed. -/
theorem particle_update_leapfrog_steps (ops : FOps) (p : Particle) (dt : ℚ)
    (particles : List Particle) :
    let vHalf : ℚ × ℚ := (p.velocity.1 + p.acceleration.1 * dt * 0.5,
                          p.velocity.2 + p.acceleration.2 * dt * 0.5)
    let posNew : ℚ × ℚ := (p.position.1 + vHalf.1 * dt,
                           p.position.2 + vHalf.2 * dt)
    let aNew : ℚ × ℚ :=
      (Particle.calculate_acceleration ops
        { p with velocity := vHalf, position := posNew } particles).acceleration
    (p.update ops dt particles).position = posNew ∧
    (p.update ops dt particles).acceleration = aNew ∧
    (p.update ops dt particles).velocity =
      (vHalf.1 + aNew.1 * dt * 0.5, vHalf.2 + aNew.2 * dt * 0.5) ∧
    (p.update ops dt particles).mass = p.mass ∧
    (p.update ops dt particles).radius = p.radius := by
  refine ⟨?_, ?_, ?_, ?_, ?_⟩ <;>
    simp [Particle.update, calc_acc_position, calc_acc_velocity,
      calc_acc_mass, calc_acc_radius]

/-! ### C3 -/

/-- One loop iteration adds exactly the spec-side contribution (with the
softening taken from `p0`, the first particle of the whole set). -/
theorem pairAccum_eq_add_specContribution (ops : FOps) (self p0 : Particle)
    (acc : ℚ × ℚ) (other : Particle) :
    pairAccum ops self p0 acc other =
      acc + specContribution ops self (ops.log10 p0.mass) other := by
  unfold pairAccum specContribution
  by_cases h :
      ops.sqrt ((other.position.1 - self.position.1) *
          (other.position.1 - self.position.1) +
        (other.position.2 - self.position.2) *
          (other.position.2 - self.position.2) + ops.log10 p0.mass) <
      self.radius + other.radius
  · simp [h, Prod.ext_iff]
  · simp [h, Prod.ext_iff]

/-- Folding the loop body over a list starting from `acc` adds the sum of
the spec-side contributions. -/
theorem foldl_pairAccum_eq_sum (ops : FOps) (self p0 : Particle)
    (l : List Particle) (acc : ℚ × ℚ) :
    l.foldl (pairAccum ops self p0) acc =
      acc + (l.map (specContribution ops self (ops.log10 p0.mass))).sum := by
  induction l generalizing acc with
  | nil => simp
  | cons x xs ih =>
      simp only [List.foldl_cons, List.map_cons, List.sum_cons, ih,
        pairAccum_eq_add_specContribution, add_assoc]

/-- C3: on a nonempty collection `p0 :: rest`, the force evaluation
returns exactly the sum, started at `(0,0)`, of the per-pair
contributions `force * (dx/dist, dy/dist)` with
`force = G * other.mass / distSq`, `distSq = dx*dx + dy*dy + softening`,
`dist = sqrt distSq`, `(dx, dy)` the offset from the target to the other
particle, and the one global softening `log10 p0.mass` taken from the
first particle of the whole set for every pair (cutoff-skipped pairs
contribute zero; `G = 1`; see `specContribution`). -/
theorem calculate_acceleration_pair_sum (ops : FOps) (target p0 : Particle)
    (rest : List Particle) :
    (Particle.calculate_acceleration ops target (p0 :: rest)).acceleration =
      ((p0 :: rest).map
        (specContribution ops target (ops.log10 p0.mass))).sum := by
  show ((p0 :: rest).foldl (pairAccum ops target p0) (0, 0) : ℚ × ℚ) = _
  rw [foldl_pairAccum_eq_sum]
  exact zero_add _

/-! ### C5 -/

/-- C5: a pair whose softened distance lies under the near-field cutoff
`target.radius + other.radius` is skipped entirely: the loop iteration
returns the accumulator unchanged, and the spec-side contribution of the
pair is exactly `(0, 0)`. -/
theorem near_field_cutoff_zero_contribution (ops : FOps)
    (self p0 other : Particle) (acc : ℚ × ℚ)
    (h : ops.sqrt ((other.position.1 - self.position.1) *
            (other.position.1 - self.position.1) +
          (other.position.2 - self.position.2) *
            (other.position.2 - self.position.2) + ops.log10 p0.mass) <
          self.radius + other.radius) :
    pairAccum ops self p0 acc other = acc ∧
    specContribution ops self (ops.log10 p0.mass) other = (0, 0) := by
  constructor
  · unfold pairAccum
    exact if_pos h
  · unfold specContribution
    exact if_pos h

/-- Two overlapping demo particles: radius 2 each, centres 3/4 apart. -/
def demoOverlapA : Particle := Particle.new demoOps 0 0 10
/-- The second overlapping demo particle. -/
def demoOverlapB : Particle := Particle.new demoOps (3 / 4) 0 10

/-- Witness for C5: for two concrete overlapping particles (radius 2
each, softened distance 5/4 < 4) the loop iteration leaves the
accumulator untouched and the pair contribution is exactly zero. -/
theorem near_field_cutoff_zero_contribution_witness :
    pairAccum demoOps demoOverlapA demoOverlapA (0, 0) demoOverlapB = (0, 0) ∧
    specContribution demoOps demoOverlapA (demoOps.log10 demoOverlapA.mass)
      demoOverlapB = (0, 0) :=
  near_field_cutoff_zero_contribution demoOps demoOverlapA demoOverlapA
    demoOverlapB (0, 0)
    (by norm_num [demoOverlapA, demoOverlapB, Particle.new, demoOps])

/-! ### C6 -/

/-- C6: after every `reset` the collection has exactly
`1 + particle_count` elements and the particle at index 0 is the central
mass: positioned at the window's visual centre
`(WINDOW_WIDTH/2, WINDOW_HEIGHT/2) = (800, 600)`, with mass the
central-mass parameter (slider 6) and zero velocity and acceleration. -/
theorem reset_count_and_central_particle (ops : FOps) (draws : Nat → ℚ)
    (s : SimulationState) :
    (s.reset ops draws).particles.length = 1 + s.particle_count ∧
    (s.reset ops draws).particles.head? =
      some (Particle.new ops (WINDOW_WIDTH / 2) (WINDOW_HEIGHT / 2)
        ((s.sliders 6).value)) ∧
    (Particle.new ops (WINDOW_WIDTH / 2) (WINDOW_HEIGHT / 2)
        ((s.sliders 6).value)).position = (800, 600) ∧
    (Particle.new ops (WINDOW_WIDTH / 2) (WINDOW_HEIGHT / 2)
        ((s.sliders 6).value)).mass = (s.sliders 6).value ∧
    (Particle.new ops (WINDOW_WIDTH / 2) (WINDOW_HEIGHT / 2)
        ((s.sliders 6).value)).velocity = (0, 0) ∧
    (Particle.new ops (WINDOW_WIDTH / 2) (WINDOW_HEIGHT / 2)
        ((s.sliders 6).value)).acceleration = (0, 0) := by
  refine ⟨?_, rfl, ?_, rfl, rfl, rfl⟩
  · simp [SimulationState.reset]
    omega
  · norm_num [Particle.new, WINDOW_WIDTH, WINDOW_HEIGHT]

/-! ### C7 -/

/-- C7: the orbiter built at loop index `k` of `reset` (stored at
collection index `k + 1`) has velocity exactly
`(-v * sin angle, v * cos angle)` with
`v = sqrt (G * central_mass / distance) * initial_velocity_multiplier`;
with multiplier 1 its velocity is orthogonal to its radius vector from
the centre, and — granted the Pythagorean identity for the sampled angle
and correctness of the square root at the sampled radicand — its squared
speed is `G * central_mass / distance`. -/
theorem reset_orbiter_velocity_circular (ops : FOps) (draws : Nat → ℚ)
    (s : SimulationState) (k : Nat) (hk : k < s.particle_count) :
    ((s.reset ops draws).particles)[k + 1]? =
      some (resetOrbiter ops (s.sliders 6).value s.initial_velocity_multiplier
        (draws (3 * k)) (draws (3 * k + 1)) (draws (3 * k + 2))) ∧
    (resetOrbiter ops (s.sliders 6).value s.initial_velocity_multiplier
        (draws (3 * k)) (draws (3 * k + 1)) (draws (3 * k + 2))).velocity =
      (-(ops.sqrt (G * (s.sliders 6).value / draws (3 * k)) *
           s.initial_velocity_multiplier * ops.sin (draws (3 * k + 1))),
        ops.sqrt (G * (s.sliders 6).value / draws (3 * k)) *
          s.initial_velocity_multiplier * ops.cos (draws (3 * k + 1))) ∧
    (s.initial_velocity_multiplier = 1 →
      (resetOrbiter ops (s.sliders 6).value s.initial_velocity_multiplier
          (draws (3 * k)) (draws (3 * k + 1)) (draws (3 * k + 2))).velocity.1 *
        ((resetOrbiter ops (s.sliders 6).value s.initial_velocity_multiplier
          (draws (3 * k)) (draws (3 * k + 1)) (draws (3 * k + 2))).position.1 -
          WINDOW_WIDTH / 2) +
      (resetOrbiter ops (s.sliders 6).value s.initial_velocity_multiplier
          (draws (3 * k)) (draws (3 * k + 1)) (draws (3 * k + 2))).velocity.2 *
        ((resetOrbiter ops (s.sliders 6).value s.initial_velocity_multiplier
          (draws (3 * k)) (draws (3 * k + 1)) (draws (3 * k + 2))).position.2 -
          WINDOW_HEIGHT / 2) = 0) ∧
    (s.initial_velocity_multiplier = 1 →
      ops.sin (draws (3 * k + 1)) * ops.sin (draws (3 * k + 1)) +
        ops.cos (draws (3 * k + 1)) * ops.cos (draws (3 * k + 1)) = 1 →
      ops.sqrt (G * (s.sliders 6).value / draws (3 * k)) *
        ops.sqrt (G * (s.sliders 6).value / draws (3 * k)) =
        G * (s.sliders 6).value / draws (3 * k) →
      (resetOrbiter ops (s.sliders 6).value s.initial_velocity_multiplier
          (draws (3 * k)) (draws (3 * k + 1)) (draws (3 * k + 2))).velocity.1 *
        (resetOrbiter ops (s.sliders 6).value s.initial_velocity_multiplier
          (draws (3 * k)) (draws (3 * k + 1)) (draws (3 * k + 2))).velocity.1 +
      (resetOrbiter ops (s.sliders 6).value s.initial_velocity_multiplier
          (draws (3 * k)) (draws (3 * k + 1)) (draws (3 * k + 2))).velocity.2 *
        (resetOrbiter ops (s.sliders 6).value s.initial_velocity_multiplier
          (draws (3 * k)) (draws (3 * k + 1)) (draws (3 * k + 2))).velocity.2 =
        G * (s.sliders 6).value / draws (3 * k)) := by
  refine ⟨?_, rfl, ?_, ?_⟩
  · simp [SimulationState.reset, List.getElem?_map, List.getElem?_range, hk,
      Particle.new]
  · intro hmult
    simp only [resetOrbiter, Particle.new]
    ring
  · intro hmult hpyth hsqrt
    simp only [resetOrbiter, Particle.new, hmult]
    linear_combination
      (ops.sqrt (G * (s.sliders 6).value / draws (3 * k)) *
        ops.sqrt (G * (s.sliders 6).value / draws (3 * k))) * hpyth + hsqrt

/-- Central-mass slider for the C7 witness state. -/
def demoCentralSlider : Slider :=
  { value := 400, min := 100, max := 5000, label := "Central Mass",
    y_pos := 290, text_input := none }

/-- Slider bank for the C7 witness state. -/
def demoSliders7 : Fin 7 → Slider :=
  fun i => if i = 6 then demoCentralSlider else demoBlankSlider

/-- State for the C7 witness: one orbiter, multiplier 1, central mass 400. -/
def demoOrbitState : SimulationState :=
  { particles := []
    particle_count := 1
    initial_mass_range := (1, 5)
    initial_velocity_multiplier := 1
    paused := true
    sliders := demoSliders7 }

/-- Rng stream for the C7 witness: distance 4, angle 1, mass 10. -/
def demoDraws : Nat → ℚ := fun n => if n = 0 then 4 else if n = 1 then 1 else 10

/-- Witness for C7: with central mass 400, distance 4, angle 1 (a 3-4-5
oracle angle) the seeded orbiter has velocity `(-6, 8)`, orthogonal to
its radius vector, and squared speed `100 = G * 400 / 4`. -/
theorem reset_orbiter_velocity_circular_witness :
    ((demoOrbitState.reset demoOps demoDraws).particles)[1]? =
      some (resetOrbiter demoOps 400 1 4 1 10) ∧
    (resetOrbiter demoOps 400 1 4 1 10).velocity = (-6, 8) ∧
    (resetOrbiter demoOps 400 1 4 1 10).velocity.1 *
        ((resetOrbiter demoOps 400 1 4 1 10).position.1 - WINDOW_WIDTH / 2) +
      (resetOrbiter demoOps 400 1 4 1 10).velocity.2 *
        ((resetOrbiter demoOps 400 1 4 1 10).position.2 - WINDOW_HEIGHT / 2)
      = 0 ∧
    (resetOrbiter demoOps 400 1 4 1 10).velocity.1 *
        (resetOrbiter demoOps 400 1 4 1 10).velocity.1 +
      (resetOrbiter demoOps 400 1 4 1 10).velocity.2 *
        (resetOrbiter demoOps 400 1 4 1 10).velocity.2 = G * 400 / 4 := by
  obtain ⟨h1, h2, h3, h4⟩ :=
    reset_orbiter_velocity_circular demoOps demoDraws demoOrbitState 0
      (by norm_num [demoOrbitState])
  refine ⟨h1, h2.trans ?_, h3 rfl, h4 rfl ?_ ?_⟩
  · norm_num [demoOps, G, demoDraws, demoOrbitState, demoSliders7,
      demoCentralSlider]
  · norm_num [demoOps, demoDraws]
  · norm_num [demoOps, G, demoDraws, demoOrbitState, demoSliders7,
      demoCentralSlider]

/-! ### C8 -/

/-- On a nonempty slice `p0 :: rest`, the checked fold never sees a
failed index: the per-iteration `particles[0]` read always yields `p0`. -/
theorem foldl_checked_eq_some (ops : FOps) (self p0 : Particle)
    (rest : List Particle) :
    ∀ (l : List Particle) (a : ℚ × ℚ),
      l.foldl (fun acc other => acc.bind (fun x =>
          ((p0 :: rest)[0]?).map (fun q => pairAccum ops self q x other)))
        (some a) = some (l.foldl (pairAccum ops self p0) a) := by
  intro l
  induction l with
  | nil => intro a; rfl
  | cons x xs ih =>
      intro a
      simpa using ih (pairAccum ops self p0 a x)

/-- C8 (amended): the force evaluation never fails — in particular not on
the empty collection.  The `particles[0]` softening read sits inside the
per-pair loop, which runs once per element of the very slice being
indexed, so every executed read is on a nonempty slice, and on an empty
collection the read is never reached: the call returns normally with
zero acceleration instead of erroring. -/
theorem calculate_acceleration_checked_never_fails (ops : FOps)
    (self : Particle) (particles : List Particle) :
    Particle.calculate_acceleration_checked ops self particles =
      some (Particle.calculate_acceleration ops self particles) := by
  cases particles with
  | nil => rfl
  | cons p0 rest =>
      unfold Particle.calculate_acceleration_checked
        Particle.calculate_acceleration
      rw [foldl_checked_eq_some]
      rfl

/-- Counterexample for C8 as stated: with an empty particle collection
the force evaluation does not error — the index-0 access is never
reached, and the call silently returns a result (the input particle with
acceleration reset to zero). -/
theorem empty_collection_force_returns_result :
    Particle.calculate_acceleration_checked demoOps
        (Particle.new demoOps 1 2 3) [] =
      some { Particle.new demoOps 1 2 3 with acceleration := (0, 0) } := rfl

/-! ### C9 -/

/-- The radius-from-mass law: `radius = max (mass ^ 0.3) 2`. -/
def radiusInv (ops : FOps) (p : Particle) : Prop :=
  p.radius = max (ops.powf p.mass 0.3) 2

/-- `Particle::update` never changes the mass. -/
theorem particle_update_mass (ops : FOps) (p : Particle) (dt : ℚ)
    (l : List Particle) : (p.update ops dt l).mass = p.mass := by
  simp [Particle.update, calc_acc_mass]

/-- `Particle::update` never changes the radius. -/
theorem particle_update_radius (ops : FOps) (p : Particle) (dt : ℚ)
    (l : List Particle) : (p.update ops dt l).radius = p.radius := by
  simp [Particle.update, calc_acc_radius]

/-- C9: `Particle::new` sets position `(x, y)`, zero velocity and
acceleration, the given mass, and the radius by the law
`radius = max (mass ^ 0.3) 2`; no operation mutates an existing
particle's mass or radius (`Particle::update` keeps both, the frame
update keeps both for every particle, `add_large_mass` appends a fresh
particle leaving the existing prefix untouched), and every particle of a
freshly reset collection satisfies the law. -/
theorem radius_law_invariant (ops : FOps) (x y m dt : ℚ) (draws : Nat → ℚ)
    (p : Particle) (l : List Particle) (s : SimulationState) :
    (Particle.new ops x y m).position = (x, y) ∧
    (Particle.new ops x y m).velocity = (0, 0) ∧
    (Particle.new ops x y m).acceleration = (0, 0) ∧
    (Particle.new ops x y m).mass = m ∧
    radiusInv ops (Particle.new ops x y m) ∧
    (p.update ops dt l).mass = p.mass ∧
    (p.update ops dt l).radius = p.radius ∧
    (SimulationState.update ops s).particles.map Particle.mass =
      s.particles.map Particle.mass ∧
    (SimulationState.update ops s).particles.map Particle.radius =
      s.particles.map Particle.radius ∧
    (s.add_large_mass ops x y).particles =
      s.particles ++ [Particle.new ops x y ((s.sliders 3).value * 100)] ∧
    (∀ q ∈ (s.reset ops draws).particles, radiusInv ops q) := by
  refine ⟨rfl, rfl, rfl, rfl, rfl, particle_update_mass ops p dt l,
    particle_update_radius ops p dt l, ?_, ?_, rfl, ?_⟩
  · cases hb : s.paused <;>
      simp [SimulationState.update, hb, List.map_map, Function.comp_def,
        particle_update_mass]
  · cases hb : s.paused <;>
      simp [SimulationState.update, hb, List.map_map, Function.comp_def,
        particle_update_radius]
  · intro q hq
    simp only [SimulationState.reset, List.mem_cons, List.mem_map,
      List.mem_range] at hq
    rcases hq with h | ⟨k, -, h⟩
    · subst h; rfl
    · subst h
      simp [radiusInv, resetOrbiter, Particle.new]

/-- Witness for C9: the law holds at a fresh concrete particle, and at
the central particle of a concrete reset collection (discharging the
membership hypothesis of the last conjunct). -/
theorem radius_law_invariant_witness :
    radiusInv demoOps (Particle.new demoOps 1 2 16) ∧
    radiusInv demoOps
      (Particle.new demoOps (WINDOW_WIDTH / 2) (WINDOW_HEIGHT / 2)
        ((demoOrbitState.sliders 6).value)) := by
  obtain ⟨-, -, -, -, h5, -, -, -, -, -, h11⟩ :=
    radius_law_invariant demoOps 1 2 16 0 demoDraws (Particle.new demoOps 0 0 1)
      [] demoOrbitState
  exact ⟨h5, h11 _ (by simp [SimulationState.reset])⟩

/-! ### C10 -/

/-- C10: the "Softening" slider (index 4) and the "Time Step" slider
(index 5) are inert for the physics: two states that agree on all
physics fields and on every slider except (possibly) 4 and 5 produce
identical particle collections (hence identical positions, velocities
and accelerations) after a frame update — the effective dt is always
`DT * sliders[0]` and the softening term always comes from
`particles[0].mass`. -/
theorem inert_sliders_noninterference (ops : FOps) (s t : SimulationState)
    (hp : s.particles = t.particles)
    (hc : s.particle_count = t.particle_count)
    (hm : s.initial_mass_range = t.initial_mass_range)
    (hv : s.initial_velocity_multiplier = t.initial_velocity_multiplier)
    (hpause : s.paused = t.paused)
    (hs : ∀ i : Fin 7, i ≠ 4 → i ≠ 5 → s.sliders i = t.sliders i) :
    (SimulationState.update ops s).particles =
      (SimulationState.update ops t).particles := by
  have h0 : (s.sliders 0).value = (t.sliders 0).value := by
    rw [hs 0 (by decide) (by decide)]
  cases hb : s.paused with
  | false =>
      have hb' : t.paused = false := hpause.symm.trans hb
      simp [SimulationState.update, hb, hb', hp, h0]
  | true =>
      have hb' : t.paused = true := hpause.symm.trans hb
      simp [SimulationState.update, hb, hb', hp]

/-- Softening slider with the layout of `SimulationState::new` and a
chosen value. -/
def demoSofteningSlider (v : ℚ) : Slider :=
  { value := v, min := 0.1, max := 10, label := "Softening",
    y_pos := 210, text_input := none }

/-- Time-step slider with the layout of `SimulationState::new` and a
chosen value. -/
def demoTimeStepSlider (v : ℚ) : Slider :=
  { value := v, min := 0.001, max := 0.1, label := "Time Step",
    y_pos := 250, text_input := none }

/-- Demo slider bank with chosen "Softening" and "Time Step" values. -/
def demoSlidersC (soft tstep : ℚ) : Fin 7 → Slider :=
  fun i =>
    if i = 0 then demoTimeSpeedSlider 2
    else if i = 4 then demoSofteningSlider soft
    else if i = 5 then demoTimeStepSlider tstep
    else demoBlankSlider

/-- First C10 witness state: softening 1, time step 0.016. -/
def demoStateA : SimulationState :=
  { particles := [Particle.new demoOps 0 0 10]
    particle_count := 0
    initial_mass_range := (1, 5)
    initial_velocity_multiplier := 1
    paused := false
    sliders := demoSlidersC 1 0.016 }

/-- Second C10 witness state: identical except softening 9, time step
0.09. -/
def demoStateB : SimulationState := { demoStateA with sliders := demoSlidersC 9 0.09 }

/-- Witness for C10: the two concrete states differing only in the
"Softening" and "Time Step" sliders step to identical particle
collections. -/
theorem inert_sliders_noninterference_witness :
    (SimulationState.update demoOps demoStateA).particles =
      (SimulationState.update demoOps demoStateB).particles :=
  inert_sliders_noninterference demoOps demoStateA demoStateB rfl rfl rfl rfl rfl
    (by
      intro i h4 h5
      fin_cases i <;> simp_all [demoStateA, demoStateB, demoSlidersC])

/-! ### C4 -/

/-- The C4 failing particle: mass 10 (radius 2), large x-velocity, so one
drift moves it 63/16 away from its snapshot copy, past the near-field
cutoff 4. -/
def demoFastParticle : Particle :=
  { Particle.new demoOps 0 0 10 with velocity := (1575 / 64, 0) }

/-- The C4 failing state: a single-particle running simulation with
"Time Speed" 10, i.e. effective dt 0.16. -/
def demoFastState : SimulationState :=
  { particles := [demoFastParticle]
    particle_count := 0
    initial_mass_range := (1, 5)
    initial_velocity_multiplier := 1
    paused := false
    sliders := demoSliders 10 }

/-- C4 (evaluation at the failing input): after one frame update of a
single-particle simulation, the collection's only particle carries the
nonzero acceleration `(-161280/274625, 0)` — a gravitational pull that
can only come from the particle's own copy in the snapshot, since the
snapshot holds nothing else.  `std::ptr::eq` compares the live `&mut`
particle with elements of the cloned snapshot, is therefore always
false, and never performs the self-skip the claim describes. -/
theorem self_snapshot_copy_exerts_force :
    (SimulationState.update demoOps demoFastState).particles.map
        Particle.acceleration = [(-(161280 / 274625), 0)] ∧
    (SimulationState.update demoOps demoFastState).particles.map
        Particle.acceleration ≠ [(0, 0)] := by
  have h : (SimulationState.update demoOps demoFastState).particles.map
      Particle.acceleration = [(-(161280 / 274625), 0)] := by
    norm_num [SimulationState.update, demoFastState, demoSliders,
      demoTimeSpeedSlider, demoBlankSlider, DT, Particle.update,
      Particle.calculate_acceleration, pairAccum, demoFastParticle,
      Particle.new, demoOps, G]
  refine ⟨h, ?_⟩
  rw [h]
  norm_num
